import Mathlib

/-!
Verification of the steelseries-sync core: a shallow embedding of the
sync engine, safety guard, backup manager and folder provider
(src/src-tauri/src/{sync_engine,safety,backup}.rs, providers/folder.rs),
with theorems settling the specified behavioural claims.

Bytes are modelled as `List Nat`, instants (chrono `DateTime<Utc>` and
file modification times) as `Nat`, filesystem directories as records of
optional file contents.  Fallible I/O steps are driven by an explicit
environment record so every operation is a pure function.
-/

namespace SteelSync

/-! ### Safety guard (src/src-tauri/src/safety.rs) -/

/-- The process-name tokens of the Engine (`GG_PROCESS_NAMES`). -/
def GG_PROCESS_NAMES : List String :=
  ["SteelSeriesGG", "SteelSeriesGG.exe",
   "SteelSeriesEngine", "SteelSeriesEngine.exe",
   "SteelSeriesEngine3", "SteelSeriesEngine3.exe"]

/-- Substring containment on character lists (Rust `str::contains`). -/
def containsSub (needle : List Char) : List Char → Bool
  | [] => needle.isEmpty
  | c :: t => needle.isPrefixOf (c :: t) || containsSub needle t

/-- `hay.contains(needle)` on strings. -/
def strContains (hay needle : String) : Bool :=
  containsSub needle.data hay.data

/-- `SafetyGuard::is_gg_running`: some live process name contains an
Engine token.  The process table is passed in explicitly. -/
def is_gg_running (procs : List String) : Bool :=
  procs.any (fun name => GG_PROCESS_NAMES.any (fun gg => strContains name gg))

/-- The local config directory: optional contents of the three
`database.db*` files, whether opening `database.db` fails, and its
modification time. -/
structure LocalDir where
  db : Option (List Nat)
  shm : Option (List Nat)
  wal : Option (List Nat)
  dbLocked : Bool
  dbMtime : Nat
deriving DecidableEq

inductive SafetyCheck
  | Safe
  | GGRunning
  | FileLocked
  | NoConfig
deriving DecidableEq

/-- `SafetyGuard::is_safe_to_read`. -/
def is_safe_to_read (dir : LocalDir) : SafetyCheck :=
  if dir.db.isNone then SafetyCheck.NoConfig
  else if dir.dbLocked then SafetyCheck.FileLocked
  else SafetyCheck.Safe

/-- `SafetyGuard::is_safe_to_write`. -/
def is_safe_to_write (procs : List String) (dir : LocalDir) : SafetyCheck :=
  if is_gg_running procs then SafetyCheck.GGRunning
  else if dir.db.isNone then SafetyCheck.NoConfig
  else if dir.dbLocked then SafetyCheck.FileLocked
  else SafetyCheck.Safe

/-- Modelled from the spec: safe-to-write as the specification words it,
returning `GGRunning` when the Engine is live and otherwise the
safe-to-read result with `NoConfig` mapped to `Safe`.  Kept for
comparison against `is_safe_to_write` as implemented. -/
def is_safe_to_write_specVersion (procs : List String) (dir : LocalDir) : SafetyCheck :=
  if is_gg_running procs then SafetyCheck.GGRunning
  else
    match is_safe_to_read dir with
    | SafetyCheck.NoConfig => SafetyCheck.Safe
    | r => r

/-- The 16 magic bytes `b"SQLite format 3\0"` (`SQLITE_MAGIC`). -/
def SQLITE_MAGIC : List Nat :=
  [83, 81, 76, 105, 116, 101, 32, 102, 111, 114, 109, 97, 116, 32, 51, 0]

/-- `validate_sqlite_header`: length strictly above 16 and the first 16
bytes equal the magic. -/
def validate_sqlite_header (data : List Nat) : Bool :=
  decide (SQLITE_MAGIC.length < data.length) &&
    decide (data.take SQLITE_MAGIC.length = SQLITE_MAGIC)

/-- An empty directory with no `database.db`, used as a concrete input. -/
def emptyDir : LocalDir :=
  { db := none, shm := none, wal := none, dbLocked := false, dbMtime := 0 }

/-! ### Backup manager (src/src-tauri/src/backup.rs)

A backup directory is a list of `BackupRec` in on-disk enumeration
order; `created` is the directory's modification time.  The copied
`database.db*` file contents are carried along.  `list_backups` sorts by
`created` descending (Rust `sort_by(|a, b| b.created.cmp(&a.created))`),
so the enumeration order itself is unobservable. -/

structure BackupRec where
  name : String
  label : String
  created : Nat
  db : Option (List Nat)
  shm : Option (List Nat)
  wal : Option (List Nat)
deriving DecidableEq

/-- The sort relation of `list_backups`: newest (largest `created`)
first. -/
def backupNewer (a b : BackupRec) : Prop :=
  b.created ≤ a.created

instance : DecidableRel backupNewer :=
  fun a b => inferInstanceAs (Decidable (b.created ≤ a.created))

instance : IsTotal BackupRec backupNewer :=
  ⟨fun a b => Nat.le_total b.created a.created⟩

instance : IsTrans BackupRec backupNewer :=
  ⟨fun _ _ _ hab hbc => Nat.le_trans hbc hab⟩

/-- `BackupManager::list_backups`: the stored entries sorted newest
first (a stable sort, as Rust's `sort_by`). -/
def list_backups (store : List BackupRec) : List BackupRec :=
  List.insertionSort backupNewer store

/-- `BackupManager::prune_old_backups`: compute the listing and, when it
is longer than `max_backups`, remove every entry past index
`max_backups - 1`, keeping the `max_backups` newest. -/
def prune_old_backups (max_backups : Nat) (store : List BackupRec) : List BackupRec :=
  let backups := list_backups store
  if max_backups < backups.length then backups.take max_backups else store

/-- The directory entry `create_backup` produces: named
`<label>-<timestamp>`, holding the copies of the `database.db*` files of
the source directory (sibling files are not copied). -/
def newBackupRec (src : LocalDir) (label : String) (now : Nat) : BackupRec :=
  { name := label ++ "-" ++ toString now
    label := label
    created := now
    db := src.db
    shm := src.shm
    wal := src.wal }

/-- `BackupManager::create_backup`: add the timestamped copy of the
`database.db*` files, then prune.  (Creation and copying are modelled as
infallible; the claims under scrutiny concern the success path.) -/
def create_backup (max_backups : Nat) (store : List BackupRec) (src : LocalDir)
    (label : String) (now : Nat) : List BackupRec :=
  prune_old_backups max_backups (store ++ [newBackupRec src label now])

/-! ### Provider data model (src/src-tauri/src/providers/mod.rs) -/

/-- `SyncMeta`: the remote-recorded instant and authoring device. -/
structure SyncMeta where
  last_modified : Nat
  device_name : String
deriving DecidableEq

/-- `ConfigSnapshot`: the transferred triple plus metadata. -/
structure ConfigSnapshot where
  db : List Nat
  db_shm : Option (List Nat)
  db_wal : Option (List Nat)
  meta : SyncMeta
deriving DecidableEq

/-- `ProviderError` (the `Io`/`Network` payloads are dropped, the
`Other` message kept). -/
inductive ProviderErr
  | Io
  | Network
  | NotFound
  | Other (msg : String)
deriving DecidableEq

/-! ### Folder provider (src/src-tauri/src/providers/folder.rs)

The provider's directory contents are modelled explicitly; the stored
`sync_meta.json` is kept parsed (its serialisation round-trips). -/

/-- Contents of the folder provider's sync directory. -/
structure FolderState where
  db : Option (List Nat)
  shm : Option (List Nat)
  wal : Option (List Nat)
  meta : Option SyncMeta
deriving DecidableEq

/-- The `FolderProvider` configuration (the directory path is implicit:
its contents are the `FolderState` argument). -/
structure FolderProvider where
  device_name : String
deriving DecidableEq

/-- `FolderProvider::push`: write `database.db`, each present sidecar,
and the metadata stamped with the provider's device name and the
current instant.  An absent sidecar is not written — and any stale
sidecar file already in the directory is left in place. -/
def FolderProvider.push (p : FolderProvider) (now : Nat) (snapshot : ConfigSnapshot)
    (fs : FolderState) : FolderState :=
  { db := some snapshot.db
    shm := match snapshot.db_shm with
      | some b => some b
      | none => fs.shm
    wal := match snapshot.db_wal with
      | some b => some b
      | none => fs.wal
    meta := some { last_modified := now, device_name := p.device_name } }

/-- `FolderProvider::remote_meta`: read `sync_meta.json`; absence is
`NotFound`. -/
def FolderProvider.remote_meta (fs : FolderState) : Except ProviderErr SyncMeta :=
  match fs.meta with
  | none => Except.error ProviderErr.NotFound
  | some m => Except.ok m

/-- `FolderProvider::pull`: read `database.db` (absence is `NotFound`),
the sidecars as present, and the metadata. -/
def FolderProvider.pull (fs : FolderState) : Except ProviderErr ConfigSnapshot :=
  match fs.db with
  | none => Except.error ProviderErr.NotFound
  | some db =>
    match FolderProvider.remote_meta fs with
    | Except.error e => Except.error e
    | Except.ok m => Except.ok { db := db, db_shm := fs.shm, db_wal := fs.wal, meta := m }

/-! ### Sync engine (src/src-tauri/src/sync_engine.rs) -/

inductive SkipReason
  | GGRunning
  | FileLocked
  | NoLocalConfig
  | NoRemoteConfig
  | AlreadyInSync
  | InvalidRemoteFile
deriving DecidableEq

inductive SyncResult
  | Pushed
  | Pulled (from_device : String) (gg_was_running : Bool)
  | Skipped (reason : SkipReason)
deriving DecidableEq

/-- `SyncError` (payloads dropped). -/
inductive SyncError
  | Io
  | Provider
deriving DecidableEq

/-- Outcome of `provider.pull()`, supplied by the environment. -/
inductive PullOutcome
  | ok (s : ConfigSnapshot)
  | notFound
  | failed
deriving DecidableEq

/-- Outcome of `provider.remote_meta()`, supplied by the environment. -/
inductive MetaOutcome
  | ok (m : SyncMeta)
  | notFound
  | failed
deriving DecidableEq

/-- One operation's environment: the OS process table, the provider
responses, whether `provider.push` and the local write fail, and the
current instant. -/
structure EngineEnv where
  procs : List String
  pullResult : PullOutcome
  metaResult : MetaOutcome
  pushFails : Bool
  writeFails : Bool
  now : Nat
deriving DecidableEq

/-- The engine's configuration (`AppConfig` fields it reads). -/
structure SyncEngine where
  device_name : String
  max_backups : Nat
deriving DecidableEq

/-- The engine-visible mutable state: the local config directory, the
backup directory, and the `pull_in_progress` suppression flag. -/
structure EngineState where
  localDir : LocalDir
  backups : List BackupRec
  pull_in_progress : Bool
deriving DecidableEq

/-- `SyncEngine::read_local_config`: read the triple and stamp it with
`now` and this device's name; a missing `database.db` is an I/O error. -/
def read_local_config (device_name : String) (now : Nat) (dir : LocalDir) :
    Except SyncError ConfigSnapshot :=
  match dir.db with
  | none => Except.error SyncError.Io
  | some db =>
    Except.ok
      { db := db, db_shm := dir.shm, db_wal := dir.wal
        meta := { last_modified := now, device_name := device_name } }

/-- `SyncEngine::write_local_config`: write `database.db` and each
present sidecar (an absent sidecar leaves the existing file); failure is
an I/O error (the model leaves the directory unchanged on failure — the
claims only observe the flag there). -/
def write_local_config (writeFails : Bool) (now : Nat) (dir : LocalDir)
    (snapshot : ConfigSnapshot) : Except SyncError LocalDir :=
  if writeFails then Except.error SyncError.Io
  else
    Except.ok
      { dir with
        db := some snapshot.db
        shm := match snapshot.db_shm with
          | some b => some b
          | none => dir.shm
        wal := match snapshot.db_wal with
          | some b => some b
          | none => dir.wal
        dbMtime := now }

/-- `SyncEngine::push_to_remote`: gate on safe-to-read (`NoConfig` and
`FileLocked` skip, `GGRunning` would fall through), read the local
triple, delegate to the provider. -/
def push_to_remote (e : SyncEngine) (env : EngineEnv) (st : EngineState) :
    Except SyncError SyncResult × EngineState :=
  match is_safe_to_read st.localDir with
  | SafetyCheck.NoConfig => (Except.ok (SyncResult.Skipped SkipReason.NoLocalConfig), st)
  | SafetyCheck.FileLocked => (Except.ok (SyncResult.Skipped SkipReason.FileLocked), st)
  | _ =>
    match read_local_config e.device_name env.now st.localDir with
    | Except.error err => (Except.error err, st)
    | Except.ok _snapshot =>
      if env.pushFails then (Except.error SyncError.Provider, st)
      else (Except.ok SyncResult.Pushed, st)

/-- `SyncEngine::pull_from_remote`: gate on safe-to-read (`FileLocked`
skips, `NoConfig` is acceptable), pull, validate the SQLite header,
take a `pre-pull` backup when a local `database.db` exists, set the
suppression flag, then write the snapshot locally. -/
def pull_from_remote (e : SyncEngine) (env : EngineEnv) (st : EngineState) :
    Except SyncError SyncResult × EngineState :=
  let gg_was_running := is_gg_running env.procs
  match is_safe_to_read st.localDir with
  | SafetyCheck.FileLocked => (Except.ok (SyncResult.Skipped SkipReason.FileLocked), st)
  | _ =>
    match env.pullResult with
    | PullOutcome.notFound => (Except.ok (SyncResult.Skipped SkipReason.NoRemoteConfig), st)
    | PullOutcome.failed => (Except.error SyncError.Provider, st)
    | PullOutcome.ok remote =>
      if validate_sqlite_header remote.db = false then
        (Except.ok (SyncResult.Skipped SkipReason.InvalidRemoteFile), st)
      else
        let st1 :=
          if st.localDir.db.isSome then
            { st with
              backups := (create_backup e.max_backups st.backups st.localDir ("pre-pull") env.now) }
          else st
        let st2 := { st1 with pull_in_progress := true }
        match write_local_config env.writeFails env.now st2.localDir remote with
        | Except.error err => (Except.error err, st2)
        | Except.ok dir2 =>
          (Except.ok (SyncResult.Pulled remote.meta.device_name gg_was_running),
            { st2 with localDir := dir2 })

/-- `SyncEngine::should_suppress_push`: atomic swap-to-false, returning
the previous flag value. -/
def should_suppress_push (st : EngineState) : Bool × EngineState :=
  (st.pull_in_progress, { st with pull_in_progress := false })

/-- `SyncEngine::sync`: four-way case on local existence and remote
metadata; when both exist, last-writer-wins on the timestamps with a
`pre-push` backup before pushing. -/
def sync (e : SyncEngine) (env : EngineEnv) (st : EngineState) :
    Except SyncError SyncResult × EngineState :=
  let local_exists := st.localDir.db.isSome
  match env.metaResult with
  | MetaOutcome.failed => (Except.error SyncError.Provider, st)
  | MetaOutcome.notFound =>
    match local_exists with
    | true => push_to_remote e env st
    | false => (Except.ok (SyncResult.Skipped SkipReason.NoLocalConfig), st)
  | MetaOutcome.ok remote =>
    match local_exists with
    | true =>
      let local_ts := st.localDir.dbMtime
      if remote.last_modified < local_ts then
        push_to_remote e env
          { st with
            backups := (create_backup e.max_backups st.backups st.localDir ("pre-push") env.now) }
      else if local_ts < remote.last_modified then
        pull_from_remote e env st
      else
        (Except.ok (SyncResult.Skipped SkipReason.AlreadyInSync), st)
    | false => pull_from_remote e env st

/-- Repeated consumption of the suppression flag: apply
`should_suppress_push`'s state part `n` times. -/
def drainSuppress : Nat → EngineState → EngineState
  | 0, st => st
  | n + 1, st => drainSuppress n (should_suppress_push st).snd

/-! ### Concrete inputs used by witnesses and counterexamples -/

/-- A pruned old entry, used as a concrete input. -/
def oldRecW : BackupRec :=
  { name := "pre-push-5", label := "pre-push", created := 5,
    db := none, shm := none, wal := none }

/-- A second old entry labelled `pre-push`, created at instant 3. -/
def oldRecW2 : BackupRec :=
  { name := "pre-push-3", label := "pre-push", created := 3,
    db := none, shm := none, wal := none }

/-- The bytes of `"not a database"`. -/
def badBytes : List Nat :=
  [110, 111, 116, 32, 97, 32, 100, 97, 116, 97, 98, 97, 115, 101]

/-- A valid database payload: the magic followed by one zero byte. -/
def goodBytes : List Nat := SQLITE_MAGIC ++ [0]

/-- A remote snapshot failing SQLite validation. -/
def snapBad : ConfigSnapshot :=
  { db := badBytes, db_shm := none, db_wal := none,
    meta := { last_modified := 0, device_name := "peer" } }

/-- A remote snapshot passing SQLite validation. -/
def snapGood : ConfigSnapshot :=
  { db := goodBytes, db_shm := none, db_wal := none,
    meta := { last_modified := 3, device_name := "peer" } }

/-- Engine state with an empty local directory and no backups. -/
def stEmpty : EngineState :=
  { localDir := emptyDir, backups := [], pull_in_progress := false }

/-- Environment delivering the invalid remote snapshot. -/
def envC4 : EngineEnv :=
  { procs := [], pullResult := PullOutcome.ok snapBad, metaResult := MetaOutcome.notFound,
    pushFails := false, writeFails := false, now := 0 }

/-- Environment delivering the valid remote snapshot at instant 7. -/
def envPull : EngineEnv :=
  { procs := [], pullResult := PullOutcome.ok snapGood, metaResult := MetaOutcome.notFound,
    pushFails := false, writeFails := false, now := 7 }

/-- Environment where the local write fails after a valid remote pull. -/
def envPullWriteFail : EngineEnv :=
  { procs := [], pullResult := PullOutcome.ok snapGood, metaResult := MetaOutcome.notFound,
    pushFails := false, writeFails := true, now := 7 }

/-- The state a fresh pull of `snapGood` into `stEmpty` produces. -/
def stPulled : EngineState :=
  { localDir :=
      { db := some goodBytes, shm := none, wal := none, dbLocked := false, dbMtime := 7 },
    backups := [],
    pull_in_progress := true }

/-- State for the C8 counterexample: no local `database.db`, two stale
`pre-push` backups on disk. -/
def stC8 : EngineState :=
  { localDir := emptyDir, backups := [oldRecW, oldRecW2], pull_in_progress := false }

/-- A local directory holding a valid `database.db` with mtime 1. -/
def dirWithDb : LocalDir :=
  { db := some goodBytes, shm := none, wal := none, dbLocked := false, dbMtime := 1 }

/-- State with an existing local database and one old backup. -/
def stLocal : EngineState :=
  { localDir := dirWithDb, backups := [oldRecW], pull_in_progress := false }

/-- The state produced by pulling `snapGood` over `stLocal`. -/
def stPulledLocal : EngineState :=
  (pull_from_remote { device_name := "dev", max_backups := 20 } envPull stLocal).snd

/-- Environment whose remote metadata carries instant 1 (equal to
`dirWithDb`'s mtime). -/
def envMetaEq : EngineEnv :=
  { procs := [], pullResult := PullOutcome.notFound,
    metaResult := MetaOutcome.ok { last_modified := 1, device_name := "peer" },
    pushFails := false, writeFails := false, now := 7 }

/-- Engine state whose local database has mtime 1. -/
def stMtime1 : EngineState :=
  { localDir := dirWithDb, backups := [], pull_in_progress := false }

/-- A folder-provider directory holding a stale `database.db-shm`. -/
def fsStale : FolderState :=
  { db := none, shm := some [1, 2, 3], wal := none, meta := none }

/-- An empty folder-provider directory. -/
def fsEmpty : FolderState :=
  { db := none, shm := none, wal := none, meta := none }

/-- The snapshot pushed in the C7 counterexample: no sidecars, authored
by `my-pc`. -/
def snapC7 : ConfigSnapshot :=
  { db := [9], db_shm := none, db_wal := none,
    meta := { last_modified := 0, device_name := "my-pc" } }

/-- The round-trip snapshot of scenario S2: db and wal present, no shm. -/
def snapRT : ConfigSnapshot :=
  { db := [9, 9], db_shm := none, db_wal := some [4, 4],
    meta := { last_modified := 0, device_name := "my-pc" } }

end SteelSync

namespace SteelSync

/-! ### Claims C5 and C2 -/

/-- C5: `validate_sqlite_header b` holds iff `b` is longer than 16 bytes
and its first 16 bytes are the ASCII magic `"SQLite format 3"` followed
by a NUL; the bare 16-byte magic is invalid and the magic followed by
one zero byte is valid. -/
theorem c5_validate_sqlite_header_iff :
    (∀ b : List Nat,
      validate_sqlite_header b = true ↔ (16 < b.length ∧ b.take 16 = SQLITE_MAGIC)) ∧
    validate_sqlite_header SQLITE_MAGIC = false ∧
    validate_sqlite_header (SQLITE_MAGIC ++ [0]) = true := by
  refine ⟨fun b => ?_, by decide, by decide⟩
  simp [validate_sqlite_header, SQLITE_MAGIC]

/-- C2 counterexample: with no Engine process live and `database.db`
absent, `is_safe_to_write` returns `NoConfig`, while the claim says the
no-config case is treated as `Safe`. -/
theorem c2_counterexample :
    is_safe_to_write [] emptyDir = SafetyCheck.NoConfig ∧
    is_safe_to_write_specVersion [] emptyDir = SafetyCheck.Safe ∧
    is_safe_to_write [] emptyDir ≠ is_safe_to_write_specVersion [] emptyDir := by
  refine ⟨by decide, by decide, by decide⟩

/-! ### Backup retention (claim C6) -/

theorem length_list_backups_eq (store : List BackupRec) :
    (list_backups store).length = store.length :=
  List.length_insertionSort backupNewer store

theorem prune_length_le (max_backups : Nat) (store : List BackupRec) :
    (prune_old_backups max_backups store).length ≤ max_backups ∨
      (prune_old_backups max_backups store) = store := by
  unfold prune_old_backups
  by_cases h : max_backups < (list_backups store).length
  · left
    simp [h, List.length_take]
  · right
    simp [h]

theorem create_backup_listing_length_le (max_backups : Nat) (store : List BackupRec)
    (src : LocalDir) (label : String) (now : Nat) :
    (list_backups (create_backup max_backups store src label now)).length ≤ max_backups := by
  unfold create_backup prune_old_backups
  by_cases h : max_backups < (list_backups (store ++ [newBackupRec src label now])).length
  · rw [if_pos h, length_list_backups_eq, List.length_take]
    exact Nat.min_le_left _ _
  · rw [if_neg h, length_list_backups_eq, ← length_list_backups_eq]
    exact Nat.not_lt.1 h

theorem list_backups_sorted (store : List BackupRec) :
    List.Sorted backupNewer (list_backups store) :=
  List.sorted_insertionSort backupNewer store

/-- C6: after `create_backup` with retention `N`, the listing has at
most `N` entries, is ordered by modification time descending, and every
pruned entry is no newer than every retained one (so the retained
entries are exactly the `N` newest; labels play no role). -/
theorem c6_retention (max_backups : Nat) (store : List BackupRec) (src : LocalDir)
    (label : String) (now : Nat) :
    (list_backups (create_backup max_backups store src label now)).length ≤ max_backups ∧
    List.Sorted backupNewer (list_backups (create_backup max_backups store src label now)) ∧
    ∀ e ∈ store ++ [newBackupRec src label now],
      e ∉ create_backup max_backups store src label now →
      ∀ k ∈ create_backup max_backups store src label now, e.created ≤ k.created := by
  refine ⟨create_backup_listing_length_le _ _ _ _ _, list_backups_sorted _, ?_⟩
  intro e he hnot k hk
  unfold create_backup prune_old_backups at hnot hk
  by_cases hov : max_backups < (list_backups (store ++ [newBackupRec src label now])).length
  · rw [if_pos hov] at hnot hk
    have hmem : e ∈ list_backups (store ++ [newBackupRec src label now]) := by
      unfold list_backups
      exact (List.mem_insertionSort backupNewer).2 he
    have hsorted : List.Pairwise backupNewer
        (list_backups (store ++ [newBackupRec src label now])) :=
      list_backups_sorted _
    rw [← List.take_append_drop max_backups
      (list_backups (store ++ [newBackupRec src label now]))] at hmem hsorted
    rcases List.mem_append.1 hmem with h1 | h2
    · exact absurd h1 hnot
    · exact (List.pairwise_append.1 hsorted).2.2 k hk e h2
  · rw [if_neg hov] at hnot
    exact absurd he hnot

/-- C6 witness: with retention 1, after backing up over one older entry
the listing has one entry and the pruned entry is older than the
retained one. -/
theorem c6_retention_witness :
    (list_backups (create_backup 1 [oldRecW] emptyDir ("pre-pull") 10)).length ≤ 1 ∧
    oldRecW.created ≤ (newBackupRec emptyDir ("pre-pull") 10).created := by
  refine ⟨(c6_retention 1 [oldRecW] emptyDir ("pre-pull") 10).1, ?_⟩
  exact (c6_retention 1 [oldRecW] emptyDir ("pre-pull") 10).2.2 oldRecW (by decide)
    (by decide) (newBackupRec emptyDir ("pre-pull") 10) (by decide)

/-- C2 amended: `is_safe_to_write` returns `GGRunning` when a live
process name contains an Engine token, and otherwise returns exactly the
safe-to-read result — `NoConfig` included; the engine, not the guard,
treats the no-config case as acceptable on its pull path. -/
theorem c2_safe_to_write_characterisation (procs : List String) (dir : LocalDir) :
    is_safe_to_write procs dir =
      if is_gg_running procs then SafetyCheck.GGRunning else is_safe_to_read dir := by
  by_cases hgg : is_gg_running procs = true <;>
    simp [is_safe_to_write, is_safe_to_read, hgg]

/-! ### Invalid remote content (claim C4) -/

/-- C4: when the pulled remote snapshot fails SQLite header validation,
`pull_from_remote` returns `Skipped(InvalidRemoteFile)` and the whole
engine state — local files, backups, suppression flag — is unchanged. -/
theorem c4_pull_invalid_remote (e : SyncEngine) (env : EngineEnv) (st : EngineState)
    (remote : ConfigSnapshot)
    (hpull : env.pullResult = PullOutcome.ok remote)
    (hbad : validate_sqlite_header remote.db = false)
    (hread : is_safe_to_read st.localDir ≠ SafetyCheck.FileLocked) :
    pull_from_remote e env st =
      (Except.ok (SyncResult.Skipped SkipReason.InvalidRemoteFile), st) := by
  cases hsr : is_safe_to_read st.localDir with
  | FileLocked => exact absurd hsr hread
  | Safe => simp [pull_from_remote, hsr, hpull, hbad]
  | GGRunning => simp [pull_from_remote, hsr, hpull, hbad]
  | NoConfig => simp [pull_from_remote, hsr, hpull, hbad]

/-- C4 witness: pulling the literal `"not a database"` payload into an
empty local directory is skipped as `InvalidRemoteFile` with the state
untouched. -/
theorem c4_pull_invalid_remote_witness :
    pull_from_remote { device_name := "dev", max_backups := 20 } envC4 stEmpty =
      (Except.ok (SyncResult.Skipped SkipReason.InvalidRemoteFile), stEmpty) :=
  c4_pull_invalid_remote _ envC4 stEmpty snapBad rfl (by decide) (by decide)

/-! ### Suppression flag survives a failed write (claim C10) -/

/-- C10: when the local write fails after remote validation succeeded,
`pull_from_remote` returns an I/O error but the suppression flag has
already been set and is not cleared, so the next
`should_suppress_push` still returns true. -/
theorem c10_write_failure_keeps_flag (e : SyncEngine) (env : EngineEnv) (st : EngineState)
    (remote : ConfigSnapshot)
    (hpull : env.pullResult = PullOutcome.ok remote)
    (hvalid : validate_sqlite_header remote.db = true)
    (hread : is_safe_to_read st.localDir ≠ SafetyCheck.FileLocked)
    (hfail : env.writeFails = true) :
    (pull_from_remote e env st).fst = Except.error SyncError.Io ∧
    (pull_from_remote e env st).snd.pull_in_progress = true ∧
    (should_suppress_push (pull_from_remote e env st).snd).fst = true := by
  cases hsr : is_safe_to_read st.localDir with
  | FileLocked => exact absurd hsr hread
  | Safe =>
    simp [pull_from_remote, write_local_config, should_suppress_push, hsr, hpull, hvalid, hfail]
  | GGRunning =>
    simp [pull_from_remote, write_local_config, should_suppress_push, hsr, hpull, hvalid, hfail]
  | NoConfig =>
    simp [pull_from_remote, write_local_config, should_suppress_push, hsr, hpull, hvalid, hfail]

/-- C10 witness: a pull of the valid snapshot whose local write fails
leaves the flag set, and the next `should_suppress_push` returns true. -/
theorem c10_write_failure_keeps_flag_witness :
    (pull_from_remote { device_name := "dev", max_backups := 20 } envPullWriteFail stEmpty).fst =
      Except.error SyncError.Io ∧
    (should_suppress_push
      (pull_from_remote { device_name := "dev", max_backups := 20 } envPullWriteFail
        stEmpty).snd).fst = true := by
  have h := c10_write_failure_keeps_flag { device_name := "dev", max_backups := 20 }
    envPullWriteFail stEmpty snapGood rfl (by decide) (by decide) rfl
  exact ⟨h.1, h.2.2⟩

/-! ### Single-shot suppression flag (claim C1) -/

theorem pull_pulled_flag (e : SyncEngine) (env : EngineEnv) (st : EngineState)
    (d : String) (g : Bool) (st1 : EngineState)
    (h : pull_from_remote e env st = (Except.ok (SyncResult.Pulled d g), st1)) :
    st1.pull_in_progress = true := by
  simp only [pull_from_remote] at h
  split at h
  · simp at h
  · split at h
    · simp at h
    · simp at h
    · split at h
      · simp at h
      · split at h
        · simp at h
        · rw [Prod.mk.injEq] at h
          obtain ⟨-, h2⟩ := h
          subst h2
          rfl

theorem push_to_remote_snd (e : SyncEngine) (env : EngineEnv) (st : EngineState) :
    (push_to_remote e env st).snd = st := by
  simp only [push_to_remote]
  split
  · rfl
  · rfl
  · split
    · rfl
    · split <;> rfl

theorem drainSuppress_flag (n : Nat) : ∀ st : EngineState, st.pull_in_progress = false →
    (drainSuppress n st).pull_in_progress = false := by
  induction n with
  | zero => intro st h; exact h
  | succ k ih =>
    intro st h
    show (drainSuppress k (should_suppress_push st).snd).pull_in_progress = false
    exact ih _ rfl

/-- C1: a successful `pull_from_remote` that writes new content leaves
the suppression flag set; the next `should_suppress_push` returns true,
every later call returns false (however many times it is repeated), and
`push_to_remote` never touches the flag — so one pull suppresses at most
one watcher-triggered push. -/
theorem c1_suppression_single_shot (e : SyncEngine) (env : EngineEnv) (st : EngineState)
    (d : String) (g : Bool) (st1 : EngineState)
    (h : pull_from_remote e env st = (Except.ok (SyncResult.Pulled d g), st1)) :
    (should_suppress_push st1).fst = true ∧
    (should_suppress_push (should_suppress_push st1).snd).fst = false ∧
    (∀ n, (should_suppress_push (drainSuppress n (should_suppress_push st1).snd)).fst = false) ∧
    ∀ env2 st2, (push_to_remote e env2 st2).snd.pull_in_progress = st2.pull_in_progress := by
  have hf := pull_pulled_flag e env st d g st1 h
  refine ⟨hf, rfl, ?_, ?_⟩
  · intro n
    exact drainSuppress_flag n _ rfl
  · intro env2 st2
    rw [push_to_remote_snd]

/-- C1 witness: after the concrete fresh pull of `snapGood`, the first
`should_suppress_push` returns true and the second returns false. -/
theorem c1_suppression_single_shot_witness :
    (should_suppress_push stPulled).fst = true ∧
    (should_suppress_push (should_suppress_push stPulled).snd).fst = false := by
  have h := c1_suppression_single_shot { device_name := "dev", max_backups := 20 }
    envPull stEmpty ("peer") false stPulled (by rfl)
  exact ⟨h.1, h.2.1⟩

/-! ### The GGRunning skip reason is unreachable (claim C9) -/

theorem push_fst_ne_gg (e : SyncEngine) (env : EngineEnv) (st : EngineState) :
    (push_to_remote e env st).fst ≠ Except.ok (SyncResult.Skipped SkipReason.GGRunning) := by
  simp only [push_to_remote]
  split
  · simp
  · simp
  · split
    · simp
    · split <;> simp

theorem pull_fst_ne_gg (e : SyncEngine) (env : EngineEnv) (st : EngineState) :
    (pull_from_remote e env st).fst ≠ Except.ok (SyncResult.Skipped SkipReason.GGRunning) := by
  simp only [pull_from_remote]
  split
  · simp
  · split
    · simp
    · simp
    · split
      · simp
      · split <;> simp

/-- C9: `is_safe_to_read` never answers `GGRunning`, and none of
`push_to_remote`, `pull_from_remote`, `sync` can return
`Skipped(GGRunning)` — the engine gates only on the read check. -/
theorem c9_no_gg_skip (e : SyncEngine) (env : EngineEnv) (st : EngineState) :
    (∀ dir, is_safe_to_read dir ≠ SafetyCheck.GGRunning) ∧
    (push_to_remote e env st).fst ≠ Except.ok (SyncResult.Skipped SkipReason.GGRunning) ∧
    (pull_from_remote e env st).fst ≠ Except.ok (SyncResult.Skipped SkipReason.GGRunning) ∧
    (sync e env st).fst ≠ Except.ok (SyncResult.Skipped SkipReason.GGRunning) := by
  refine ⟨fun dir => ?_, push_fst_ne_gg e env st, pull_fst_ne_gg e env st, ?_⟩
  · simp only [is_safe_to_read]
    split
    · simp
    · split <;> simp
  · simp only [sync]
    split
    · simp
    · split
      · exact push_fst_ne_gg e env st
      · simp
    · split
      · split
        · exact push_fst_ne_gg e env _
        · split
          · exact pull_fst_ne_gg e env st
          · simp
      · exact pull_fst_ne_gg e env st

/-! ### The four-way case split of sync (claim C3) -/

/-- C3: `sync` splits on (local `database.db` exists, remote metadata
present): both present compares mtime to `last_modified` — strictly
newer local takes a `pre-push` backup then pushes, strictly newer
remote pulls, equality is `Skipped(AlreadyInSync)`; only local pushes;
only remote pulls; neither is `Skipped(NoLocalConfig)`. -/
theorem c3_sync_case_split (e : SyncEngine) (env : EngineEnv) (st : EngineState) :
    (∀ m, env.metaResult = MetaOutcome.ok m → st.localDir.db.isSome = true →
      ((m.last_modified < st.localDir.dbMtime →
          sync e env st = push_to_remote e env
            { st with
              backups :=
                (create_backup e.max_backups st.backups st.localDir ("pre-push") env.now) }) ∧
       (st.localDir.dbMtime < m.last_modified →
          sync e env st = pull_from_remote e env st) ∧
       (st.localDir.dbMtime = m.last_modified →
          sync e env st = (Except.ok (SyncResult.Skipped SkipReason.AlreadyInSync), st)))) ∧
    (env.metaResult = MetaOutcome.notFound → st.localDir.db.isSome = true →
        sync e env st = push_to_remote e env st) ∧
    (∀ m, env.metaResult = MetaOutcome.ok m → st.localDir.db.isSome = false →
        sync e env st = pull_from_remote e env st) ∧
    (env.metaResult = MetaOutcome.notFound → st.localDir.db.isSome = false →
        sync e env st = (Except.ok (SyncResult.Skipped SkipReason.NoLocalConfig), st)) := by
  refine ⟨?_, ?_, ?_, ?_⟩
  · intro m hm hloc
    refine ⟨fun hlt => ?_, fun hlt => ?_, fun heq => ?_⟩
    · simp only [sync, hm, hloc]
      rw [if_pos hlt]
    · simp only [sync, hm, hloc]
      rw [if_neg (Nat.lt_asymm hlt), if_pos hlt]
    · simp only [sync, hm, hloc]
      rw [if_neg (by omega), if_neg (by omega)]
  · intro hm hloc
    simp only [sync, hm, hloc]
  · intro m hm hloc
    simp only [sync, hm, hloc]
  · intro hm hloc
    simp only [sync, hm, hloc]

/-- C3 witness: with local mtime equal to the remote instant, `sync` on
the concrete state is `Skipped(AlreadyInSync)`. -/
theorem c3_sync_case_split_witness :
    sync { device_name := "dev", max_backups := 20 } envMetaEq stMtime1 =
      (Except.ok (SyncResult.Skipped SkipReason.AlreadyInSync), stMtime1) := by
  have h := (c3_sync_case_split { device_name := "dev", max_backups := 20 } envMetaEq stMtime1).1
    { last_modified := 1, device_name := "peer" } rfl rfl
  exact h.2.2 rfl

/-! ### Folder push/pull round trip (claim C7) -/

/-- C7 counterexample: pushing a snapshot without sidecars into a folder
holding a stale `database.db-shm`, with the provider configured under a
different device name, pulls back a snapshot whose shm sidecar is
present (S's was absent) and whose `device_name` is the provider's, not
S's. -/
theorem c7_counterexample :
    FolderProvider.pull (FolderProvider.push { device_name := "other-pc" } 7 snapC7 fsStale) =
      Except.ok { db := [9], db_shm := some [1, 2, 3], db_wal := none,
                  meta := { last_modified := 7, device_name := "other-pc" } } ∧
    snapC7.db_shm = none ∧ snapC7.meta.device_name = "my-pc" :=
  ⟨rfl, rfl, rfl⟩

/-- C7 amended: pushing S to a Folder provider whose directory holds no
sidecar file that S lacks, and whose configured device name equals
`S.meta.device_name`, pulls back exactly S's db and sidecars with
`device_name` preserved (and `last_modified` stamped at push time). -/
theorem c7_folder_roundtrip (p : FolderProvider) (now : Nat) (S : ConfigSnapshot)
    (fs : FolderState)
    (hshm : S.db_shm = none → fs.shm = none)
    (hwal : S.db_wal = none → fs.wal = none)
    (hdev : p.device_name = S.meta.device_name) :
    FolderProvider.pull (FolderProvider.push p now S fs) =
      Except.ok { db := S.db, db_shm := S.db_shm, db_wal := S.db_wal,
                  meta := { last_modified := now, device_name := S.meta.device_name } } := by
  cases hs : S.db_shm with
  | none =>
    cases hw : S.db_wal with
    | none =>
      simp [FolderProvider.push, FolderProvider.pull, FolderProvider.remote_meta,
        hs, hw, hshm hs, hwal hw, hdev]
    | some bw =>
      simp [FolderProvider.push, FolderProvider.pull, FolderProvider.remote_meta,
        hs, hw, hshm hs, hdev]
  | some bs =>
    cases hw : S.db_wal with
    | none =>
      simp [FolderProvider.push, FolderProvider.pull, FolderProvider.remote_meta,
        hs, hw, hwal hw, hdev]
    | some bw =>
      simp [FolderProvider.push, FolderProvider.pull, FolderProvider.remote_meta,
        hs, hw, hdev]

/-- C7 witness: the scenario-S2 snapshot round-trips through an empty
folder directory. -/
theorem c7_folder_roundtrip_witness :
    FolderProvider.pull (FolderProvider.push { device_name := "my-pc" } 7 snapRT fsEmpty) =
      Except.ok { db := snapRT.db, db_shm := snapRT.db_shm, db_wal := snapRT.db_wal,
                  meta := { last_modified := 7, device_name := snapRT.meta.device_name } } :=
  c7_folder_roundtrip { device_name := "my-pc" } 7 snapRT fsEmpty
    (fun _ => rfl) (fun _ => rfl) rfl

/-! ### Backups after a successful pull (claim C8) -/

theorem head_take (n : Nat) (l : List BackupRec) (hn : n ≠ 0) :
    (l.take n).head? = l.head? := by
  cases n with
  | zero => exact absurd rfl hn
  | succ k => cases l <;> rfl

theorem sorted_head_newest (store : List BackupRec) (entry : BackupRec)
    (hclock : ∀ b ∈ store, b.created < entry.created) :
    (list_backups (store ++ [entry])).head? = some entry := by
  cases hs : list_backups (store ++ [entry]) with
  | nil =>
    have hlen : (list_backups (store ++ [entry])).length = store.length + 1 := by
      rw [length_list_backups_eq]
      simp
    rw [hs] at hlen
    simp at hlen
  | cons h0 t =>
    have hmem : entry ∈ list_backups (store ++ [entry]) := by
      rw [list_backups, List.mem_insertionSort]
      simp
    have hsorted := list_backups_sorted (store ++ [entry])
    have hh0 : h0 ∈ store ++ [entry] := by
      have hm : h0 ∈ list_backups (store ++ [entry]) := by
        rw [hs]
        exact List.mem_cons_self _ _
      rw [list_backups, List.mem_insertionSort] at hm
      exact hm
    rw [hs] at hmem hsorted
    have hfinal : h0 = entry := by
      rcases List.mem_cons.1 hmem with he | ht
      · exact he.symm
      · have hle : entry.created ≤ h0.created := List.rel_of_sorted_cons hsorted entry ht
        rcases List.mem_append.1 hh0 with hst | hsing
        · exact absurd (Nat.lt_of_le_of_lt hle (hclock h0 hst)) (Nat.lt_irrefl _)
        · exact List.mem_singleton.1 hsing
    simp [hfinal]

theorem create_backup_head_label (max_backups : Nat) (store : List BackupRec) (src : LocalDir)
    (label : String) (now : Nat)
    (hclock : ∀ b ∈ store, b.created < now) :
    ∀ hd ∈ (list_backups (create_backup max_backups store src label now)).head?,
      hd.label = label := by
  intro hd hhd
  have hclock2 : ∀ b ∈ store, b.created < (newBackupRec src label now).created := hclock
  have hhead := sorted_head_newest store (newBackupRec src label now) hclock2
  unfold create_backup prune_old_backups at hhd
  by_cases hov : max_backups < (list_backups (store ++ [newBackupRec src label now])).length
  · rw [if_pos hov] at hhd
    have hsorted : List.Sorted backupNewer
        ((list_backups (store ++ [newBackupRec src label now])).take max_backups) :=
      List.Pairwise.sublist (List.take_sublist _ _) (list_backups_sorted _)
    rw [show list_backups ((list_backups (store ++ [newBackupRec src label now])).take max_backups)
          = (list_backups (store ++ [newBackupRec src label now])).take max_backups
        from List.Sorted.insertionSort_eq hsorted] at hhd
    by_cases h0 : max_backups = 0
    · subst h0
      simp at hhd
    · rw [head_take max_backups _ h0, hhead] at hhd
      have he : hd = newBackupRec src label now := (by simpa using hhd : _ = hd).symm
      rw [he]
      rfl
  · rw [if_neg hov, hhead] at hhd
    have he : hd = newBackupRec src label now := (by simpa using hhd : _ = hd).symm
    rw [he]
    rfl

theorem pull_pulled_backups (e : SyncEngine) (env : EngineEnv) (st : EngineState)
    (d : String) (g : Bool) (st1 : EngineState)
    (hloc : st.localDir.db.isSome = true)
    (h : pull_from_remote e env st = (Except.ok (SyncResult.Pulled d g), st1)) :
    st1.backups = create_backup e.max_backups st.backups st.localDir ("pre-pull") env.now := by
  simp only [pull_from_remote] at h
  split at h
  · simp at h
  · split at h
    · simp at h
    · simp at h
    · split at h
      · simp at h
      · split at h
        · simp at h
        · rw [Prod.mk.injEq] at h
          obtain ⟨-, h2⟩ := h
          subst h2
          simp [hloc]

/-- C8 counterexample: a successful pull into a directory with no local
`database.db` creates no backup, so with two stale `pre-push` backups
and retention 1 the backup count stays 2 and the newest backup is not
labelled `pre-pull`. -/
theorem c8_counterexample :
    (pull_from_remote { device_name := "dev", max_backups := 1 } envPull stC8).fst =
      Except.ok (SyncResult.Pulled ("peer") false) ∧
    ¬ ((list_backups
        (pull_from_remote { device_name := "dev", max_backups := 1 } envPull
          stC8).snd.backups).length ≤ 1) ∧
    ((list_backups
        (pull_from_remote { device_name := "dev", max_backups := 1 } envPull
          stC8).snd.backups).head?.map BackupRec.label) ≠ some ("pre-pull") := by
  refine ⟨rfl, by decide, by decide⟩

/-- C8 amended: after a successful `pull_from_remote` that found an
existing local `database.db` (so a `pre-pull` backup was taken), with
every pre-existing backup older than the current instant, the backup
listing has at most `max_backups` entries and its newest entry — when
one remains — bears the `pre-pull` label. -/
theorem c8_pull_backup_invariant (e : SyncEngine) (env : EngineEnv) (st : EngineState)
    (d : String) (g : Bool) (st1 : EngineState)
    (hloc : st.localDir.db.isSome = true)
    (hclock : ∀ b ∈ st.backups, b.created < env.now)
    (h : pull_from_remote e env st = (Except.ok (SyncResult.Pulled d g), st1)) :
    (list_backups st1.backups).length ≤ e.max_backups ∧
    ∀ hd ∈ (list_backups st1.backups).head?, hd.label = "pre-pull" := by
  rw [pull_pulled_backups e env st d g st1 hloc h]
  exact ⟨create_backup_listing_length_le _ _ _ _ _,
    create_backup_head_label _ _ _ _ _ hclock⟩

/-- C8 witness: the concrete pull over an existing local database yields
a listing of at most 20 entries headed by a `pre-pull` backup. -/
theorem c8_pull_backup_invariant_witness :
    (list_backups stPulledLocal.backups).length ≤ 20 ∧
    ∀ hd ∈ (list_backups stPulledLocal.backups).head?, hd.label = "pre-pull" :=
  c8_pull_backup_invariant { device_name := "dev", max_backups := 20 } envPull stLocal
    ("peer") false stPulledLocal rfl (by decide) rfl

end SteelSync
